import Mathlib

/-!
Shallow embedding of the Petcare Flask application (src/app.py) and
verification of its specification.

The database is modelled as an in-memory store: the `users` and `bookings`
tables are lists of rows, surrogate ids are assigned from counters, and the
process-wide `db_initialized` flag is carried alongside.  SQL `Float` columns
are modelled as `ℚ`, nullable text columns as `Option String`, and the
`created_at` timestamp columns are omitted (no handler reads them).  Request
payloads parsed from JSON are modelled with `Option` fields (`none` = key
absent); where the code distinguishes a key bound to JSON `null` from an
absent key (the booking endpoint tests key membership with `in`), payload
values are a small `JValue` type that includes `null`.  The ISO-8601 parser
`datetime.fromisoformat` is an external library function and is taken as a
parameter `fromiso : String → Option Int` of the booking handler.
-/

/-- A JSON value as it appears in a parsed request payload. -/
inductive JValue where
  | jnull
  | jstr (s : String)
  | jnum (q : ℚ)
  | jbool (b : Bool)
  deriving DecidableEq

/-- A row of the `users` table (class `User`, app.py lines 57-81). -/
structure User where
  id : Nat
  name : String
  email : String
  phone : Option String
  user_type : String
  profession : Option String
  city : Option String
  region : Option String
  experience_years : Int
  services_offered : Option String
  hourly_rate : ℚ
  rating : ℚ
  total_reviews : Int
  bio : Option String
  is_verified : Bool
  is_active : Bool
  deriving DecidableEq

/-- A row of the `bookings` table (class `Booking`, app.py lines 83-95).
The handler stores the payload values without type checks, so the
referencing columns keep their `JValue`. -/
structure Booking where
  id : Nat
  client_id : JValue
  professional_id : JValue
  service_type : JValue
  booking_date : Int
  status : String
  notes : JValue
  total_cost : JValue
  deriving DecidableEq

/-- The whole mutable state: the two tables, the id counters of the storage
engine, and the process-wide `db_initialized` flag (app.py line 99). -/
structure Store where
  users : List User
  bookings : List Booking
  next_user_id : Nat
  next_booking_id : Nat
  db_initialized : Bool
  deriving DecidableEq

/-- The state of a fresh process: empty tables, flag unset. -/
def emptyStore : Store :=
  { users := [], bookings := [], next_user_id := 1, next_booking_id := 1,
    db_initialized := false }

/-- Outcome of a JSON API handler: a success payload with its HTTP status
code, or an error body `{"error": msg}` with its HTTP status code. -/
inductive ApiResult (α : Type) where
  | ok (code : Nat) (val : α)
  | err (code : Nat) (msg : String)
  deriving DecidableEq

/-- Python truthiness of an optional string value: `None` and `""` are
falsy, every other string is truthy. -/
def truthy : Option String → Bool
  | none => false
  | some s => s != ""

/-- Python `x or default` on a nullable string column: substitutes on
`None` and on the empty string alike (falsiness, not nullness). -/
def pyOr (v : Option String) (dflt : String) : String :=
  match v with
  | none => dflt
  | some s => if s = "" then dflt else s

/-- The four sample professionals inserted by the seed step
(app.py lines 115-180), with ids assigned from `startId`.  The fractional
ratings 4.8, 4.9, 4.7 are written `mkRat n 10` so that proofs can evaluate
them; `rat_of_decimal` below checks they equal the decimal literals. -/
def seedProfessionals (startId : Nat) : List User :=
  [ { id := startId, name := "Dr. Marco Rossi", email := "marco.rossi@petcare.it",
      phone := some "+39 333 1234567", user_type := "professional",
      profession := some "Veterinario", city := some "Milano", region := some "Lombardia",
      experience_years := 8,
      services_offered := some "Visite generali, Chirurgia, Vaccinazioni",
      hourly_rate := 80, rating := mkRat 48 10, total_reviews := 156,
      bio := some "Veterinario specializzato in chirurgia con 8 anni di esperienza",
      is_verified := true, is_active := true },
    { id := startId + 1, name := "Laura Bianchi", email := "laura.bianchi@petcare.it",
      phone := some "+39 347 9876543", user_type := "professional",
      profession := some "Toelettatore", city := some "Roma", region := some "Lazio",
      experience_years := 5,
      services_offered := some "Toelettatura completa, Bagno, Taglio unghie",
      hourly_rate := 45, rating := mkRat 49 10, total_reviews := 89,
      bio := some "Toelettatore certificato specializzato in razze di piccola taglia",
      is_verified := true, is_active := true },
    { id := startId + 2, name := "Giuseppe Verde", email := "giuseppe.verde@petcare.it",
      phone := some "+39 320 5551234", user_type := "professional",
      profession := some "Dog Sitter", city := some "Napoli", region := some "Campania",
      experience_years := 3,
      services_offered := some "Passeggiate, Pet sitting, Addestramento base",
      hourly_rate := 25, rating := mkRat 47 10, total_reviews := 67,
      bio := some "Dog sitter affidabile con passione per gli animali",
      is_verified := true, is_active := true },
    { id := startId + 3, name := "Sofia Russo", email := "sofia.russo@petcare.it",
      phone := some "+39 348 7778888", user_type := "professional",
      profession := some "Addestratore Cinofilo", city := some "Torino", region := some "Piemonte",
      experience_years := 6,
      services_offered := some "Addestramento avanzato, Educazione cuccioli",
      hourly_rate := 60, rating := mkRat 49 10, total_reviews := 123,
      bio := some "Addestratore cinofilo certificato ENCI",
      is_verified := true, is_active := true } ]

/-- The `mkRat` spellings used in the seed data denote exactly the decimal
rating literals of the source. -/
theorem rat_of_decimal :
    mkRat 48 10 = (4.8 : ℚ) ∧ mkRat 49 10 = (4.9 : ℚ) ∧
      mkRat 47 10 = (4.7 : ℚ) := by
  refine ⟨?_, ?_, ?_⟩ <;> norm_num [Rat.mkRat_eq_div]

/-- `init_database` (app.py lines 101-195): lazy, idempotent initializer.
If the flag is set it returns at once; otherwise it seeds the four sample
professionals only when the `users` table is empty, then records success. -/
def init_database (s : Store) : Store :=
  if s.db_initialized then s
  else if s.users.length = 0 then
    { s with users := s.users ++ seedProfessionals s.next_user_id,
             next_user_id := s.next_user_id + 4,
             db_initialized := true }
  else { s with db_initialized := true }

/-- The payload of `POST /api/register`; `none` means the key is absent
(or, equivalently for the checks this handler performs, bound to `null`). -/
structure RegisterData where
  name : Option String
  email : Option String
  phone : Option String
  user_type : Option String
  profession : Option String
  city : Option String
  region : Option String
  deriving DecidableEq

/-- `register` (app.py lines 295-333).  After the lazy init: payload absent
or falsy name/email → 400; email already present → 400; otherwise insert a
new `User` with the column defaults for every field the handler does not
pass, and respond 201 with the new id. -/
def register (s : Store) (data : Option RegisterData) : ApiResult Nat × Store :=
  let s := init_database s
  match data with
  | none => (.err 400 "Nome e email sono obbligatori", s)
  | some d =>
    if !truthy d.name || !truthy d.email then
      (.err 400 "Nome e email sono obbligatori", s)
    else if s.users.any (fun u => u.email == d.email.getD "") then
      (.err 400 "Email già registrata", s)
    else
      let u : User :=
        { id := s.next_user_id,
          name := d.name.getD "", email := d.email.getD "",
          phone := some (d.phone.getD ""),
          user_type := d.user_type.getD "client",
          profession := some (d.profession.getD ""),
          city := some (d.city.getD ""),
          region := some (d.region.getD ""),
          experience_years := 0, services_offered := none,
          hourly_rate := 0, rating := 0, total_reviews := 0, bio := none,
          is_verified := false, is_active := true }
      (.ok 201 u.id,
       { s with users := s.users ++ [u], next_user_id := s.next_user_id + 1 })

/-- The row predicate of the `GET /api/professionals` query
(app.py lines 234-239): base filter plus the optional exact-match filters,
each applied only when the query parameter is truthy. -/
def matchesProfFilter (profession city : Option String) (u : User) : Bool :=
  u.user_type == "professional" && u.is_active &&
  (if truthy profession then u.profession == profession else true) &&
  (if truthy city then u.city == city else true)

/-- `ORDER BY rating DESC` as a relation on rows. -/
def ratingGE (a b : User) : Prop := b.rating ≤ a.rating

instance : DecidableRel ratingGE :=
  fun a b => inferInstanceAs (Decidable (b.rating ≤ a.rating))

instance : IsTotal User ratingGE := ⟨fun a b => le_total b.rating a.rating⟩

instance : IsTrans User ratingGE := ⟨fun _ _ _ hab hbc => le_trans hbc hab⟩

/-- The rows returned by the `GET /api/professionals` query, in response
order (filter, then `ORDER BY rating DESC`; insertion sort is one order
consistent with the SQL ordering, and is stable). -/
def professionalsQuery (s : Store) (profession city : Option String) : List User :=
  List.insertionSort ratingGE (s.users.filter (matchesProfFilter profession city))

/-- One element of the `GET /api/professionals` response array
(app.py lines 243-256). -/
structure ProfessionalSummary where
  id : Nat
  name : String
  profession : String
  city : String
  region : String
  rating : ℚ
  total_reviews : Int
  hourly_rate : ℚ
  services_offered : String
  bio : String
  is_verified : Bool
  experience_years : Int
  deriving DecidableEq

/-- The response-dict construction of `get_professionals`
(app.py lines 243-256), with the `or`-fallback strings. -/
def summarize (p : User) : ProfessionalSummary :=
  { id := p.id, name := p.name,
    profession := pyOr p.profession "Professionista",
    city := pyOr p.city "N/A",
    region := pyOr p.region "N/A",
    rating := p.rating, total_reviews := p.total_reviews,
    hourly_rate := p.hourly_rate,
    services_offered := pyOr p.services_offered "Servizi vari",
    bio := pyOr p.bio "Professionista qualificato",
    is_verified := p.is_verified, experience_years := p.experience_years }

/-- `get_professionals` (app.py lines 224-260): lazy init, filtered and
ordered query, summaries with fallback text.  Always HTTP 200 in the model
(the 500 branch is reached only on storage failure, which the in-memory
store cannot raise). -/
def get_professionals (s : Store) (profession city : Option String) :
    List ProfessionalSummary × Store :=
  let s := init_database s
  ((professionalsQuery s profession city).map summarize, s)

/-- The `GET /api/professionals/{id}` response body (app.py lines 275-289):
raw column values, no fallback text, phone included. -/
structure ProfessionalDetail where
  id : Nat
  name : String
  profession : Option String
  city : Option String
  region : Option String
  rating : ℚ
  total_reviews : Int
  hourly_rate : ℚ
  services_offered : Option String
  bio : Option String
  is_verified : Bool
  experience_years : Int
  phone : Option String
  deriving DecidableEq

/-- The dict built from a matching row by `get_professional`. -/
def detailOf (p : User) : ProfessionalDetail :=
  { id := p.id, name := p.name, profession := p.profession, city := p.city,
    region := p.region, rating := p.rating, total_reviews := p.total_reviews,
    hourly_rate := p.hourly_rate, services_offered := p.services_offered,
    bio := p.bio, is_verified := p.is_verified,
    experience_years := p.experience_years, phone := p.phone }

/-- `get_professional` (app.py lines 262-293).  NOTE: unlike every other
storage-touching handler, the source of this one does NOT call
`init_database` — the embedding reflects that.  `.first()` on the filtered
query is `find?`; no match → 404. -/
def get_professional (s : Store) (prof_id : Nat) :
    ApiResult ProfessionalDetail × Store :=
  match s.users.find? (fun u =>
      u.id == prof_id && u.user_type == "professional" && u.is_active) with
  | none => (.err 404 "Professionista non trovato", s)
  | some p => (.ok 200 (detailOf p), s)

/-- The payload of `POST /api/bookings`.  `none` means the key is ABSENT;
`some .jnull` means the key is present and bound to JSON `null` — the
handler's `field in data` membership test distinguishes the two. -/
structure BookingPayload where
  client_id : Option JValue
  professional_id : Option JValue
  service_type : Option JValue
  booking_date : Option JValue
  notes : Option JValue
  total_cost : Option JValue
  deriving DecidableEq

/-- `create_booking` (app.py lines 335-369), parameterised by the external
ISO-8601 parser `fromiso` (`datetime.fromisoformat`; `none` = raises).
A `None` payload makes `field in data` raise `TypeError`, caught by the
generic handler → 500.  A missing key → 400.  With all four keys present,
`datetime.fromisoformat(data["booking_date"])` raises unless the value is a
string that parses → 500; otherwise the booking is inserted with status
defaulting to "pending" and 201 is returned. -/
def create_booking (fromiso : String → Option Int) (s : Store)
    (data : Option BookingPayload) : ApiResult Nat × Store :=
  let s := init_database s
  match data with
  | none => (.err 500 "Errore durante la creazione della prenotazione", s)
  | some d =>
    if !(d.client_id.isSome && d.professional_id.isSome &&
         d.service_type.isSome && d.booking_date.isSome) then
      (.err 400 "Campi obbligatori mancanti", s)
    else
      match d.booking_date with
      | some (.jstr ds) =>
        match fromiso ds with
        | some t =>
          let b : Booking :=
            { id := s.next_booking_id,
              client_id := d.client_id.getD .jnull,
              professional_id := d.professional_id.getD .jnull,
              service_type := d.service_type.getD .jnull,
              booking_date := t, status := "pending",
              notes := d.notes.getD (.jstr ""),
              total_cost := d.total_cost.getD (.jnum 0) }
          (.ok 201 b.id,
           { s with bookings := s.bookings ++ [b],
                    next_booking_id := s.next_booking_id + 1 })
        | none => (.err 500 "Errore durante la creazione della prenotazione", s)
      | _ => (.err 500 "Errore durante la creazione della prenotazione", s)

/-- The `GET /api/admin/stats` response body (app.py lines 418-428). -/
structure AdminStats where
  total_users : Nat
  total_professionals : Nat
  total_clients : Nat
  verified_professionals : Nat
  total_bookings : Nat
  pending_bookings : Nat
  deriving DecidableEq

/-- `admin_stats` (app.py lines 409-434): 401 unless the session flag
`admin_logged_in` is set; otherwise lazy init and the six count queries. -/
def admin_stats (loggedIn : Bool) (s : Store) : ApiResult AdminStats × Store :=
  if !loggedIn then (.err 401 "Non autorizzato", s)
  else
    let s := init_database s
    (.ok 200
      { total_users := s.users.length,
        total_professionals :=
          (s.users.filter (fun u => u.user_type == "professional")).length,
        total_clients :=
          (s.users.filter (fun u => u.user_type == "client")).length,
        verified_professionals :=
          (s.users.filter (fun u =>
            u.user_type == "professional" && u.is_verified)).length,
        total_bookings := s.bookings.length,
        pending_bookings :=
          (s.bookings.filter (fun b => b.status == "pending")).length }, s)

/-- The store after a whole sequence of `POST /api/register` requests. -/
def registerSeq (s : Store) (reqs : List (Option RegisterData)) : Store :=
  reqs.foldl (fun s r => (register s r).2) s

/-- The emails of all users in a store, in row order. -/
def emailsOf (s : Store) : List String := s.users.map (fun u => u.email)

/-- The store after the first request of a fresh process has initialized it. -/
def seededStore : Store := init_database emptyStore

/-! ### Helper lemmas -/

theorem emails_of_seed (n : Nat) :
    (seedProfessionals n).map (fun u => u.email) =
      ["marco.rossi@petcare.it", "laura.bianchi@petcare.it",
       "giuseppe.verde@petcare.it", "sofia.russo@petcare.it"] := rfl

theorem init_database_users_of_ne_nil (s : Store) (h : s.users ≠ []) :
    (init_database s).users = s.users := by
  unfold init_database
  by_cases h1 : s.db_initialized
  · simp [h1]
  · have h2 : ¬s.users.length = 0 := by
      simpa [List.length_eq_zero] using h
    simp [h1, h2]

theorem emailsOf_init_nodup (s : Store) (h : (emailsOf s).Nodup) :
    (emailsOf (init_database s)).Nodup := by
  by_cases h0 : s.users = []
  · unfold init_database emailsOf
    by_cases h1 : s.db_initialized
    · simpa [h1] using h
    · simp [h1, h0, emails_of_seed]
  · rw [emailsOf, init_database_users_of_ne_nil s h0]
    exact h

theorem emailsOf_register_nodup (s : Store) (r : Option RegisterData)
    (h : (emailsOf s).Nodup) : (emailsOf (register s r).2).Nodup := by
  have h1 := emailsOf_init_nodup s h
  unfold register
  cases r with
  | none => simpa using h1
  | some d =>
    by_cases hv : (!truthy d.name || !truthy d.email) = true
    · simpa [hv] using h1
    · simp only [hv, Bool.false_eq_true, if_false]
      by_cases hd :
          (init_database s).users.any (fun u => u.email == d.email.getD "") = true
      · simpa [hd] using h1
      · simp only [hd, Bool.false_eq_true, if_false, emailsOf, List.map_append,
          List.map_cons, List.map_nil]
        rw [List.nodup_append]
        refine ⟨h1, List.nodup_singleton _, ?_⟩
        intro e he hmem
        simp only [List.mem_singleton] at hmem
        subst hmem
        simp only [List.mem_map] at he
        obtain ⟨u, hu, he⟩ := he
        rw [List.any_eq_true] at hd
        exact hd ⟨u, hu, by simp [he]⟩

/-! ### Claims -/

/-- C3: `init_database` is idempotent: it seeds the four fixed records only
when the `users` table is empty; two successive calls on a fresh store leave
exactly four seed rows, and a call on a non-empty store inserts nothing. -/
theorem init_database_idempotent :
    (∀ s, init_database (init_database s) = init_database s) ∧
    (init_database (init_database emptyStore)).users.length = 4 ∧
    (∀ s, s.users ≠ [] → (init_database s).users = s.users) := by
  refine ⟨?_, by decide, init_database_users_of_ne_nil⟩
  intro s
  have h : (init_database s).db_initialized = true := by
    unfold init_database
    by_cases h1 : s.db_initialized
    · simp [h1]
    · by_cases h2 : s.users.length = 0 <;> simp [h1, h2]
  rw [init_database, if_pos h]

/-- C3 witness: a non-empty store is left unchanged by the initializer. -/
theorem init_database_idempotent_witness :
    seededStore.users ≠ [] ∧ (init_database seededStore).users = seededStore.users :=
  ⟨by decide, init_database_idempotent.2.2 seededStore (by decide)⟩

/-- C7 (refuted; the spec is the intent and the code a slip): the
professional-detail handler `get_professional` does NOT invoke the lazy
initializer.  On a fresh process it leaves the store uninitialized and
unseeded, and its answer differs from the one the initialized store gives. -/
theorem get_professional_missing_init :
    (get_professional emptyStore 1).2.db_initialized = false ∧
    (get_professional emptyStore 1).2.users = [] ∧
    (get_professional emptyStore 1).1 ≠
      (get_professional (init_database emptyStore) 1).1 := by decide

/-- C6: `GET /api/professionals/{id}` answers 404 with the exact error body
precisely when no active professional row has that id; and within the
model (where storage cannot fail) every error it produces is that 404, so
the NotFound outcome is distinct from the 500 storage-failure outcome. -/
theorem get_professional_notfound_iff (s : Store) (prof_id : Nat) :
    ((get_professional s prof_id).1 = ApiResult.err 404 "Professionista non trovato" ↔
      ∀ u ∈ s.users,
        ¬(u.id = prof_id ∧ u.user_type = "professional" ∧ u.is_active = true)) ∧
    (∀ code msg,
      (get_professional s prof_id).1 = ApiResult.err code msg → code = 404) := by
  unfold get_professional
  cases hf : s.users.find? (fun u =>
      u.id == prof_id && u.user_type == "professional" && u.is_active) with
  | none =>
    refine ⟨⟨fun _ u hu => ?_, fun _ => rfl⟩, fun code msg he => ?_⟩
    · have := List.find?_eq_none.mp hf u hu
      simpa using this
    · simp at he
      exact he.1.symm
  | some p =>
    have hmem := List.mem_of_find?_eq_some hf
    have hpred := List.find?_some hf
    simp only [Bool.and_eq_true, beq_iff_eq] at hpred
    refine ⟨⟨fun habs => ?_, fun hall => ?_⟩, fun code msg he => ?_⟩
    · exact absurd habs (by simp)
    · exact absurd ⟨hpred.1.1, hpred.1.2, hpred.2⟩ (hall p hmem)
    · exact absurd he (by simp)

/-- C6 witness: on the freshly seeded store, looking up id 9999 is a 404
with the documented error body. -/
theorem get_professional_notfound_iff_witness :
    (get_professional seededStore 9999).1 =
      ApiResult.err 404 "Professionista non trovato" :=
  (get_professional_notfound_iff seededStore 9999).1.mpr (by decide)

/-- C1: registering with an email already present (in an otherwise valid
request) answers 400 `{"error":"Email già registrata"}` and leaves the user
table unchanged; and email uniqueness (no two rows with the same email) is
preserved by every sequence of register calls. -/
theorem register_duplicate_email_conflict (s : Store) (d : RegisterData) (e : String)
    (hn : truthy d.name = true) (he : d.email = some e) (he2 : e ≠ "")
    (hdup : e ∈ emailsOf (init_database s)) :
    ((register s (some d)).1 = ApiResult.err 400 "Email già registrata" ∧
      (register s (some d)).2.users = (init_database s).users) ∧
    (∀ s0 reqs, (emailsOf s0).Nodup → (emailsOf (registerSeq s0 reqs)).Nodup) := by
  constructor
  · have ht : truthy d.email = true := by
      rw [he]; simpa [truthy] using he2
    have hany : (init_database s).users.any (fun u => u.email == d.email.getD "") = true := by
      rw [List.any_eq_true]
      simp only [emailsOf, List.mem_map] at hdup
      obtain ⟨u, hu, hue⟩ := hdup
      exact ⟨u, hu, by simp [he, hue]⟩
    unfold register
    simp [hn, ht, hany]
  · intro s0 reqs h0
    induction reqs generalizing s0 with
    | nil => exact h0
    | cons r rest ih =>
      exact ih _ (emailsOf_register_nodup s0 r h0)

/-- C1 witness: on a fresh store (seeded on first request), re-registering
the seeded email is rejected with the documented 400 body. -/
theorem register_duplicate_email_conflict_witness :
    (register emptyStore (some
      { name := some "Anna", email := some "marco.rossi@petcare.it",
        phone := none, user_type := none, profession := none,
        city := none, region := none })).1 =
      ApiResult.err 400 "Email già registrata" :=
  (register_duplicate_email_conflict emptyStore
    { name := some "Anna", email := some "marco.rossi@petcare.it",
      phone := none, user_type := none, profession := none,
      city := none, region := none }
    "marco.rossi@petcare.it" (by decide) rfl (by decide) (by decide)).1.1

/-- C2: for every store and every combination of the optional filters, the
`GET /api/professionals` response is the summaries of a list that is a
permutation of exactly the active professional rows matching each supplied
(truthy) filter, ordered by rating descending. -/
theorem get_professionals_spec (s : Store) (profession city : Option String) :
    (get_professionals s profession city).1 =
      (professionalsQuery (init_database s) profession city).map summarize ∧
    (∀ u, u ∈ professionalsQuery (init_database s) profession city ↔
      u ∈ (init_database s).users ∧ u.user_type = "professional" ∧
        u.is_active = true ∧
        (truthy profession = true → u.profession = profession) ∧
        (truthy city = true → u.city = city)) ∧
    List.Pairwise (fun a b : User => b.rating ≤ a.rating)
      (professionalsQuery (init_database s) profession city) := by
  refine ⟨rfl, ?_, ?_⟩
  · intro u
    by_cases hp : truthy profession <;> by_cases hc : truthy city <;>
      simp [professionalsQuery, List.mem_insertionSort, List.mem_filter,
            matchesProfFilter, hp, hc, and_assoc]
  · exact List.sorted_insertionSort ratingGE _

/-- C2 witness: on the seeded store with the profession filter
"Veterinario" and no city filter, exactly the one veterinarian row is
returned, already summarized. -/
theorem get_professionals_spec_witness :
    seededStore.users.get ⟨0, by decide⟩ ∈
      professionalsQuery (init_database emptyStore) (some "Veterinario") none :=
  ((get_professionals_spec emptyStore (some "Veterinario") none).2.1 _).mpr
    (by decide)

/-- C5: `GET /api/admin/stats` answers 401 with the error body whenever the
session flag is unset; when set, it answers 200 with the six counters, each
the number of rows of the (lazily initialized) store satisfying the stated
predicate. -/
theorem admin_stats_spec (loggedIn : Bool) (s : Store) :
    (loggedIn = false →
      (admin_stats loggedIn s).1 = ApiResult.err 401 "Non autorizzato") ∧
    (loggedIn = true →
      (admin_stats loggedIn s).1 = ApiResult.ok 200
        { total_users := (init_database s).users.length,
          total_professionals := (init_database s).users.countP
            (fun u => u.user_type == "professional"),
          total_clients := (init_database s).users.countP
            (fun u => u.user_type == "client"),
          verified_professionals := (init_database s).users.countP
            (fun u => u.user_type == "professional" && u.is_verified),
          total_bookings := (init_database s).bookings.length,
          pending_bookings := (init_database s).bookings.countP
            (fun b => b.status == "pending") }) := by
  constructor <;> intro h <;> subst h <;>
    simp [admin_stats, List.countP_eq_length_filter]

/-- C5 witness: before login the stats endpoint answers 401; after login on
a fresh (seeded) store it reports 4 users, all professional, all verified,
and no bookings. -/
theorem admin_stats_spec_witness :
    (admin_stats false seededStore).1 = ApiResult.err 401 "Non autorizzato" ∧
    (admin_stats true emptyStore).1 = ApiResult.ok 200
      { total_users := 4, total_professionals := 4, total_clients := 0,
        verified_professionals := 4, total_bookings := 0,
        pending_bookings := 0 } :=
  ⟨(admin_stats_spec false seededStore).1 rfl,
   by rw [(admin_stats_spec true emptyStore).2 rfl]; decide⟩

theorem init_database_sets_flag (s : Store) :
    (init_database s).db_initialized = true := by
  unfold init_database
  by_cases h1 : s.db_initialized
  · simp [h1]
  · by_cases h2 : s.users.length = 0 <;> simp [h1, h2]

/-- C4: a booking request missing any of the four required keys is answered
400 with the validation error body; with all four present but a
`booking_date` string the ISO-8601 parser rejects, the generic 500 error
path is taken instead of a 400. -/
theorem create_booking_validation (fromiso : String → Option Int) (s : Store)
    (d : BookingPayload) :
    ((d.client_id.isSome = false ∨ d.professional_id.isSome = false ∨
      d.service_type.isSome = false ∨ d.booking_date.isSome = false) →
      (create_booking fromiso s (some d)).1 =
        ApiResult.err 400 "Campi obbligatori mancanti") ∧
    (∀ ds, d.client_id.isSome = true → d.professional_id.isSome = true →
      d.service_type.isSome = true → d.booking_date = some (JValue.jstr ds) →
      fromiso ds = none →
      (create_booking fromiso s (some d)).1 =
        ApiResult.err 500 "Errore durante la creazione della prenotazione") := by
  constructor
  · intro h
    have hb : (d.client_id.isSome && d.professional_id.isSome &&
        d.service_type.isSome && d.booking_date.isSome) = false := by
      rcases h with h | h | h | h <;> simp [h]
    unfold create_booking
    simp [hb]
  · intro ds h1 h2 h3 h4 h5
    unfold create_booking
    simp [h1, h2, h3, h4, h5]

/-- C4 witness: a payload with all four keys and an unparseable date string
is answered 500, and one missing the client id is answered 400. -/
theorem create_booking_validation_witness :
    (create_booking (fun _ => none) emptyStore (some
      { client_id := some (JValue.jnum 1),
        professional_id := some (JValue.jnum 2),
        service_type := some (JValue.jstr "Toelettatura"),
        booking_date := some (JValue.jstr "not-a-date"),
        notes := none, total_cost := none })).1 =
      ApiResult.err 500 "Errore durante la creazione della prenotazione" ∧
    (create_booking (fun _ => none) emptyStore (some
      { client_id := none,
        professional_id := some (JValue.jnum 2),
        service_type := some (JValue.jstr "Toelettatura"),
        booking_date := some (JValue.jstr "2025-01-01"),
        notes := none, total_cost := none })).1 =
      ApiResult.err 400 "Campi obbligatori mancanti" :=
  ⟨(create_booking_validation (fun _ => none) emptyStore _).2
      "not-a-date" rfl rfl rfl rfl rfl,
   (create_booking_validation (fun _ => none) emptyStore _).1
      (Or.inl rfl)⟩

/-- C8: a `POST /api/bookings` with no JSON body is answered 500 (the `in`
membership test raises on `None`), not 400; and a required key bound to
JSON `null` passes the presence check, so the request gets past the
missing-fields validation. -/
theorem create_booking_null_handling (fromiso : String → Option Int)
    (s : Store) (d : BookingPayload)
    (h1 : d.client_id.isSome = true) (h2 : d.professional_id.isSome = true)
    (h3 : d.service_type.isSome = true) (h4 : d.booking_date.isSome = true) :
    (create_booking fromiso s none).1 =
      ApiResult.err 500 "Errore durante la creazione della prenotazione" ∧
    (create_booking fromiso s (some d)).1 ≠
      ApiResult.err 400 "Campi obbligatori mancanti" := by
  refine ⟨rfl, ?_⟩
  obtain ⟨v, hv⟩ := Option.isSome_iff_exists.mp h4
  unfold create_booking
  cases v with
  | jstr ds => cases hf : fromiso ds <;> simp [h1, h2, h3, hv, hf]
  | jnull => simp [h1, h2, h3, hv]
  | jnum q => simp [h1, h2, h3, hv]
  | jbool b => simp [h1, h2, h3, hv]

/-- C8 witness: every required key present but `client_id` and
`booking_date` bound to `null`: validation passes and the answer is the
generic 500, not the 400 missing-fields error. -/
theorem create_booking_null_handling_witness :
    (create_booking (fun _ => some 0) emptyStore (some
      { client_id := some JValue.jnull,
        professional_id := some (JValue.jnum 2),
        service_type := some (JValue.jstr "Toelettatura"),
        booking_date := some JValue.jnull,
        notes := none, total_cost := none })).1 ≠
      ApiResult.err 400 "Campi obbligatori mancanti" :=
  (create_booking_null_handling (fun _ => some 0) emptyStore
    { client_id := some JValue.jnull,
      professional_id := some (JValue.jnum 2),
      service_type := some (JValue.jstr "Toelettatura"),
      booking_date := some JValue.jnull,
      notes := none, total_cost := none } rfl rfl rfl rfl).2

/-- C9: every row the register endpoint adds carries the column defaults
`is_verified=false`, `rating=0`, `total_reviews=0`, `hourly_rate=0`,
`experience_years=0` — the handler passes none of these fields, so no
professional registered through the public API is verified or rated. -/
theorem register_column_defaults (s : Store) (data : Option RegisterData)
    (u : User) (hu : u ∈ ((register s data).2).users)
    (hnew : u ∉ (init_database s).users) :
    u.is_verified = false ∧ u.rating = 0 ∧ u.total_reviews = 0 ∧
      u.hourly_rate = 0 ∧ u.experience_years = 0 := by
  cases data with
  | none => exact absurd (by simpa [register] using hu) hnew
  | some d =>
    by_cases hv : (!truthy d.name || !truthy d.email) = true
    · exact absurd (by simpa [register, hv] using hu) hnew
    · by_cases hd : (init_database s).users.any
          (fun u => u.email == d.email.getD "") = true
      · exact absurd (by simpa [register, hv, hd] using hu) hnew
      · have hsplit : u ∈ (init_database s).users ∨ u =
            { id := (init_database s).next_user_id,
              name := d.name.getD "", email := d.email.getD "",
              phone := some (d.phone.getD ""),
              user_type := d.user_type.getD "client",
              profession := some (d.profession.getD ""),
              city := some (d.city.getD ""),
              region := some (d.region.getD ""),
              experience_years := 0, services_offered := none,
              hourly_rate := 0, rating := 0, total_reviews := 0, bio := none,
              is_verified := false, is_active := true } := by
          simpa [register, hv, hd, List.mem_append] using hu
        rcases hsplit with h | h
        · exact absurd h hnew
        · subst h
          exact ⟨rfl, rfl, rfl, rfl, rfl⟩

/-- The register payload of the worked example in the spec: name and a
fresh email, every optional field omitted. -/
def annaClientData : RegisterData :=
  { name := some "Anna", email := some "anna@example.com", phone := none,
    user_type := none, profession := none, city := none, region := none }

/-- A register payload choosing the professional role but omitting
profession, city and region. -/
def annaProData : RegisterData :=
  { name := some "Anna", email := some "anna@example.com", phone := none,
    user_type := some "professional", profession := none, city := none,
    region := none }

/-- C9 witness: the row created by registering Anna on a fresh store (row
id 5, after the four seeds) carries all the column defaults. -/
theorem register_column_defaults_witness :
    ({ id := 5, name := "Anna", email := "anna@example.com",
       phone := some "", user_type := "client", profession := some "",
       city := some "", region := some "", experience_years := 0,
       services_offered := none, hourly_rate := 0, rating := 0,
       total_reviews := 0, bio := none, is_verified := false,
       is_active := true } : User).is_verified = false ∧
    ({ id := 5, name := "Anna", email := "anna@example.com",
       phone := some "", user_type := "client", profession := some "",
       city := some "", region := some "", experience_years := 0,
       services_offered := none, hourly_rate := 0, rating := 0,
       total_reviews := 0, bio := none, is_verified := false,
       is_active := true } : User).rating = 0 :=
  have h := register_column_defaults emptyStore (some annaClientData)
    { id := 5, name := "Anna", email := "anna@example.com",
      phone := some "", user_type := "client", profession := some "",
      city := some "", region := some "", experience_years := 0,
      services_offered := none, hourly_rate := 0, rating := 0,
      total_reviews := 0, bio := none, is_verified := false,
      is_active := true } (by decide) (by decide)
  ⟨h.1, h.2.1⟩

/-- C10: the listing fallback substitutes on empty strings as well as on
SQL NULL; a professional registered with profession/city/region omitted is
stored with empty strings there, yet appears in `GET /api/professionals`
with the fallback texts for profession, city, region, services and bio. -/
theorem get_professionals_fallback_on_empty (s : Store) (d : RegisterData)
    (hn : truthy d.name = true) (he : truthy d.email = true)
    (ht : d.user_type = some "professional")
    (hp : d.profession = none) (hc : d.city = none) (hr : d.region = none)
    (hfresh : (init_database s).users.any
      (fun u => u.email == d.email.getD "") = false) :
    (∀ dflt, pyOr (some "") dflt = dflt ∧ pyOr none dflt = dflt) ∧
    ∃ sm ∈ (get_professionals ((register s (some d)).2) none none).1,
      sm.id = (init_database s).next_user_id ∧
      sm.profession = "Professionista" ∧ sm.city = "N/A" ∧ sm.region = "N/A" ∧
      sm.services_offered = "Servizi vari" ∧
      sm.bio = "Professionista qualificato" := by
  refine ⟨fun dflt => ⟨by simp [pyOr], rfl⟩, ?_⟩
  have hv : (!truthy d.name || !truthy d.email) = false := by simp [hn, he]
  have hreg : (register s (some d)).2 =
      { init_database s with
        users := (init_database s).users ++
          [{ id := (init_database s).next_user_id,
             name := d.name.getD "", email := d.email.getD "",
             phone := some (d.phone.getD ""),
             user_type := d.user_type.getD "client",
             profession := some (d.profession.getD ""),
             city := some (d.city.getD ""),
             region := some (d.region.getD ""),
             experience_years := 0, services_offered := none,
             hourly_rate := 0, rating := 0, total_reviews := 0, bio := none,
             is_verified := false, is_active := true }],
        next_user_id := (init_database s).next_user_id + 1 } := by
    unfold register
    simp [hv, hfresh]
  have hflag : ((register s (some d)).2).db_initialized = true := by
    rw [hreg]
    exact init_database_sets_flag s
  have hinit2 : init_database ((register s (some d)).2) =
      (register s (some d)).2 := by
    unfold init_database
    rw [if_pos hflag]
  refine ⟨summarize
    { id := (init_database s).next_user_id,
      name := d.name.getD "", email := d.email.getD "",
      phone := some (d.phone.getD ""),
      user_type := d.user_type.getD "client",
      profession := some (d.profession.getD ""),
      city := some (d.city.getD ""),
      region := some (d.region.getD ""),
      experience_years := 0, services_offered := none,
      hourly_rate := 0, rating := 0, total_reviews := 0, bio := none,
      is_verified := false, is_active := true }, ?_, ?_, ?_, ?_, ?_, ?_, ?_⟩
  · unfold get_professionals
    rw [hinit2, hreg]
    simp only [professionalsQuery, List.mem_map, List.mem_insertionSort]
    refine ⟨_, List.mem_filter.mpr ⟨List.mem_append_right _ (List.mem_singleton_self _), ?_⟩, rfl⟩
    simp [matchesProfFilter, truthy, ht]
  · simp [summarize]
  · simp [summarize, pyOr, hp]
  · simp [summarize, pyOr, hc]
  · simp [summarize, pyOr, hr]
  · simp [summarize, pyOr]
  · simp [summarize, pyOr]

/-- C10 witness: registering Anna as a professional with profession, city
and region omitted, her listing entry shows all five fallback texts. -/
theorem get_professionals_fallback_on_empty_witness :
    ∃ sm ∈ (get_professionals ((register emptyStore (some annaProData)).2)
        none none).1,
      sm.id = (init_database emptyStore).next_user_id ∧
      sm.profession = "Professionista" ∧ sm.city = "N/A" ∧ sm.region = "N/A" ∧
      sm.services_offered = "Servizi vari" ∧
      sm.bio = "Professionista qualificato" :=
  (get_professionals_fallback_on_empty emptyStore annaProData
    (by decide) (by decide) rfl rfl rfl rfl (by decide)).2
